import Mathlib

/-!
Verification of the `aiopmtiles` I/O layer (src/aiopmtiles/io.py): the
backend-selection factory `FileSystem.create_from_filepath`, the uniform
range-read contract of each backend's `get`, and the open/close lifecycle.

The Python code is shallowly embedded: URL parsing follows the semantics of
`urllib.parse.urlparse` for the components the code reads (scheme, netloc,
path); byte strings are `List Nat`; fallible Python calls return
`Except PyError`; the per-instance `AsyncExitStack` is a list of registered
resources released in LIFO order.
-/

/-! ## Python exception values surfaced by the embedded code -/

/-- Exceptions the embedded Python code can raise: attribute access on a field
never assigned (dataclass `field(init=False)`), `ValueError`, `RuntimeError`,
a failed `assert`, and `httpx.HTTPStatusError` from `raise_for_status`. -/
inductive PyError where
  | attributeError (msg : String)
  | valueError (msg : String)
  | runtimeError (msg : String)
  | assertionError (msg : String)
  | httpStatusError (status : Nat)
deriving DecidableEq, Repr

/-! ## Model of `urllib.parse.urlparse`

The code reads only `parsed.scheme`, `parsed.netloc` and `parsed.path`.
This follows CPython's `urlsplit`: a scheme is recognized before the first
colon when every character is a letter, digit, `+`, `-` or `.` and the first
is a letter, and it is lowercased; a netloc follows a leading `//` and runs to
the next `/`, `?` or `#`; the fragment is split at the first `#`, then the
query at the first `?`; the rest is the path.  None of the schemes this
library routes to an object store (`s3`, `gs`, `atlas`, `file`) is in
CPython's `uses_params`, so no `;params` split applies to the paths the code
consumes. -/

/-- Components of a parsed URL, as read by the code. -/
structure UrlParts where
  scheme : String
  netloc : String
  path : String
  query : String
  fragment : String
deriving DecidableEq, Repr

/-- Split a list at the first element satisfying the test, dropping it. -/
def splitOnFirst (p : Char → Bool) : List Char → Option (List Char × List Char)
  | [] => none
  | c :: cs =>
    if p c then some ([], cs)
    else (splitOnFirst p cs).map (fun ab => (c :: ab.1, ab.2))

/-- Characters allowed in a URL scheme (CPython `scheme_chars`). -/
def schemeChar (c : Char) : Bool :=
  (c.isAlpha || c.isDigit) || (c == '+' || c == '-' || c == '.')

/-- Extract the (lowercased) scheme, if any, and the remainder of the URL. -/
def extractScheme (url : List Char) : String × List Char :=
  match splitOnFirst (fun c => c == ':') url with
  | none => ("", url)
  | some (bef, aft) =>
    match bef with
    | [] => ("", url)
    | c :: cs =>
      if c.isAlpha && (c :: cs).all schemeChar then
        (String.mk ((c :: cs).map Char.toLower), aft)
      else ("", url)

/-- A character ending the netloc portion of a URL. -/
def netlocEnd (c : Char) : Bool :=
  c == '/' || c == '?' || c == '#'

/-- Extract the netloc (after a leading double slash) and the remainder. -/
def extractNetloc (rest : List Char) : String × List Char :=
  match rest with
  | '/' :: '/' :: r =>
    (String.mk (r.takeWhile (fun c => !netlocEnd c)),
     r.dropWhile (fun c => !netlocEnd c))
  | r => ("", r)

/-- Split off the part after the first occurrence of the given character. -/
def splitAtChar (c : Char) (l : List Char) : List Char × List Char :=
  match splitOnFirst (fun x => x == c) l with
  | none => (l, [])
  | some (a, b) => (a, b)

/-- Model of `urllib.parse.urlparse` restricted to the components the code
reads (see the section comment above). -/
def urlparse (s : String) : UrlParts :=
  let sr := extractScheme s.toList
  let nr := extractNetloc sr.2
  let rf := splitAtChar '#' nr.2
  let pq := splitAtChar '?' rf.1
  { scheme := sr.1, netloc := nr.1, path := String.mk pq.1,
    query := String.mk pq.2, fragment := String.mk rf.2 }

/-- Model of Python `str.strip(c)` for a one-character argument: remove every
occurrence of `c` from both ends of the string. -/
def pyStrip (c : Char) (s : String) : String :=
  String.mk ((((s.toList.dropWhile (fun x => x == c)).reverse.dropWhile
    (fun x => x == c)).reverse))

/-! ## Backend construction and the selector

A constructed, not-yet-opened handle is its class plus the stored `filepath`.
Dataclass construction runs `__post_init__`, so the object-store backends'
dependency asserts fire at construction time; the embedding threads the
availability of the two optional client libraries (`aioboto3`,
`gcloud.aio.storage`) as explicit booleans standing for the import guards at
the top of io.py. -/

/-- Availability of the optional client libraries (the try/except import
guards at the top of io.py). -/
structure Deps where
  aioboto3 : Bool
  gcpStorage : Bool
deriving DecidableEq, Repr

/-- The concrete `FileSystem` subclasses of io.py. -/
inductive FSKind where
  | http
  | s3FS
  | atlasS3
  | gcs
  | localFS
deriving DecidableEq, Repr

/-- A constructed (not yet opened) handle: its concrete class and the
`filepath` stored by the dataclass constructor. -/
structure FS where
  kind : FSKind
  filepath : String
deriving DecidableEq, Repr

/-- Dataclass construction of `HttpFileSystem` (no `__post_init__`). -/
def HttpFileSystem.init (filepath : String) : Except PyError FS :=
  .ok { kind := .http, filepath := filepath }

/-- Dataclass construction of `LocalFileSystem` (no `__post_init__`). -/
def LocalFileSystem.init (filepath : String) : Except PyError FS :=
  .ok { kind := .localFS, filepath := filepath }

/-- Dataclass construction of `S3FileSystem`: `__post_init__` asserts that
`aioboto3` is importable. -/
def S3FileSystem.init (deps : Deps) (filepath : String) : Except PyError FS :=
  if deps.aioboto3 then .ok { kind := .s3FS, filepath := filepath }
  else .error (.assertionError
    "\x27aioboto3\x27 must be installed to use S3 FileSystem")

/-- Dataclass construction of `AtlasS3FileSystem`: the class inherits
`S3FileSystem.__init__` and hence its `__post_init__` assert. -/
def AtlasS3FileSystem.init (deps : Deps) (filepath : String) :
    Except PyError FS :=
  if deps.aioboto3 then .ok { kind := .atlasS3, filepath := filepath }
  else .error (.assertionError
    "\x27aioboto3\x27 must be installed to use S3 FileSystem")

/-- Dataclass construction of `GcsFileSystem`: `__post_init__` asserts that
`gcloud.aio.storage` is importable. -/
def GcsFileSystem.init (deps : Deps) (filepath : String) : Except PyError FS :=
  if deps.gcpStorage then .ok { kind := .gcs, filepath := filepath }
  else .error (.assertionError
    "\x27gcloud-aio-storage\x27 must be installed to use GCS FileSystem")

/-- Model of `FileSystem.create_from_filepath`: parse the filepath and
dispatch on the scheme, falling back to `LocalFileSystem` when there is no
scheme and raising `ValueError` on any other non-empty scheme. -/
def FileSystem.create_from_filepath (deps : Deps) (filepath : String) :
    Except PyError FS :=
  let parsed := urlparse filepath
  if parsed.scheme = "http" ∨ parsed.scheme = "https" then
    HttpFileSystem.init filepath
  else if parsed.scheme = "s3" then
    S3FileSystem.init deps filepath
  else if parsed.scheme = "atlas" then
    AtlasS3FileSystem.init deps filepath
  else if parsed.scheme = "gs" then
    GcsFileSystem.init deps filepath
  else if parsed.scheme = "file" then
    LocalFileSystem.init filepath
  else if parsed.scheme ≠ "" then
    .error (.valueError ("\x27" ++ parsed.scheme ++ "\x27 is not supported"))
  else
    LocalFileSystem.init filepath

/-! ## Range strings

Each networked backend builds its range argument with the same f-string
`f"bytes={offset}-{offset + length}"`. -/

/-- The `Range` header value built by `HttpFileSystem.get`. -/
def HttpFileSystem.rangeHeader (offset length : Nat) : String :=
  "bytes=" ++ toString offset ++ "-" ++ toString (offset + length)

/-- The `Range` argument built by `S3FileSystem.get` (and inherited unchanged
by `AtlasS3FileSystem`). -/
def S3FileSystem.rangeArg (offset length : Nat) : String :=
  "bytes=" ++ toString offset ++ "-" ++ toString (offset + length)

/-- The `Range` header value built by `GcsFileSystem.get`. -/
def GcsFileSystem.rangeHeader (offset length : Nat) : String :=
  "bytes=" ++ toString offset ++ "-" ++ toString (offset + length)

/-- Modelled from the spec: the range convention
`bytes=<offset>-<offset+length>` with an inclusive upper bound. -/
def specRangeConvention (offset length : Nat) : String :=
  "bytes=" ++ toString offset ++ "-" ++ toString (offset + length)

/-! ## Local backend

`LocalFileSystem` stores the `aiofiles` handle in a `field(init=False)`
attribute, so reading it before `__aenter__` raises `AttributeError`; after
`__aexit__` the exit stack has closed the underlying file, and a seek or read
on a closed file raises `ValueError`. -/

/-- An open (or closed) file object: its contents on disk, the current seek
position, and whether it has been closed. -/
structure AioFile where
  contents : List Nat
  pos : Nat
  closed : Bool
deriving DecidableEq, Repr

/-- Model of `file.seek(offset)`: set the position, failing on a closed
file. -/
def AioFile.seek (f : AioFile) (offset : Nat) : Except PyError AioFile :=
  if f.closed then .error (.valueError "I/O operation on closed file")
  else .ok { f with pos := offset }

/-- Model of `file.read(n)`: return up to `n` bytes from the current position
and advance it, failing on a closed file; fewer bytes at end of file is not
an error. -/
def AioFile.read (f : AioFile) (n : Nat) :
    Except PyError (List Nat × AioFile) :=
  if f.closed then .error (.valueError "I/O operation on closed file")
  else .ok ((f.contents.drop f.pos).take n,
    { f with pos := min (f.pos + n) f.contents.length })

/-- Runtime state of a `LocalFileSystem` handle: `file = none` models the
`field(init=False)` attribute before `__aenter__` ever assigned it. -/
structure LocalFSState where
  filepath : String
  file : Option AioFile
deriving DecidableEq, Repr

/-- Model of `LocalFileSystem.get`: `await self.file.seek(offset)` then
`await self.file.read(length + 1)`. -/
def LocalFileSystem.get (s : LocalFSState) (offset length : Nat) :
    Except PyError (List Nat × LocalFSState) :=
  match s.file with
  | none =>
    .error (.attributeError
      "\x27LocalFileSystem\x27 object has no attribute \x27file\x27")
  | some f =>
    match f.seek offset with
    | .error e => .error e
    | .ok f1 =>
      match f1.read (length + 1) with
      | .error e => .error e
      | .ok br => .ok (br.1, { s with file := some br.2 })

/-- Model of `LocalFileSystem.__aenter__`: open the file at `filepath` (whose
on-disk contents are given) in read-only binary mode, registering it on the
exit stack. -/
def LocalFileSystem.aenter (s : LocalFSState) (diskContents : List Nat) :
    LocalFSState :=
  { s with file := some { contents := diskContents, pos := 0, closed := false } }

/-- Model of `FileSystem.__aexit__` for a local handle: `ctx.aclose()` unwinds
the registered `aiofiles.open` context, closing the file object the handle
still references. -/
def LocalFileSystem.aexit (s : LocalFSState) : LocalFSState :=
  { s with file := s.file.map (fun f => { f with closed := true }) }

/-! ## HTTP backend

`HttpFileSystem` stores an `httpx.AsyncClient` in a `field(init=False)`
attribute.  A request on a closed client raises `RuntimeError`; an unset
attribute raises `AttributeError`.  `get` sends a GET with the range header
and calls `response.raise_for_status()`, which raises `HTTPStatusError`
unless the status is a 2xx success, then returns `response.content`. -/

/-- An HTTP response: status code and body bytes. -/
structure HttpResponse where
  status : Nat
  content : List Nat
deriving DecidableEq, Repr

/-- Model of `httpx.Response.is_success`: a 2xx status code. -/
def HttpResponse.is_success (r : HttpResponse) : Bool :=
  200 ≤ r.status && r.status < 300

/-- Model of `httpx.Response.raise_for_status`: raise `HTTPStatusError`
unless the response is a success. -/
def HttpResponse.raise_for_status (r : HttpResponse) : Except PyError Unit :=
  if r.is_success then .ok () else .error (.httpStatusError r.status)

/-- The `httpx.AsyncClient` held by an HTTP handle: only its closedness is
observable here. -/
structure HttpxClient where
  closed : Bool
deriving DecidableEq, Repr

/-- Runtime state of an `HttpFileSystem` handle: `client = none` models the
`field(init=False)` attribute before `__aenter__` ever assigned it. -/
structure HttpFSState where
  filepath : String
  client : Option HttpxClient
deriving DecidableEq, Repr

/-- Model of `HttpFileSystem.get`: send a GET for `filepath` with the range
header (the server is a function from that header to a response), call
`raise_for_status`, and return `resp.content`. -/
def HttpFileSystem.get (s : HttpFSState) (server : String → HttpResponse)
    (offset length : Nat) : Except PyError (List Nat) :=
  match s.client with
  | none =>
    .error (.attributeError
      "\x27HttpFileSystem\x27 object has no attribute \x27client\x27")
  | some c =>
    if c.closed then
      .error (.runtimeError
        "Cannot send a request, as the client has been closed.")
    else
      let resp := server (HttpFileSystem.rangeHeader offset length)
      match resp.raise_for_status with
      | .error e => .error e
      | .ok _ => .ok resp.content

/-- Model of `HttpFileSystem.__aenter__`: enter an `httpx.AsyncClient` on the
exit stack and store it. -/
def HttpFileSystem.aenter (s : HttpFSState) : HttpFSState :=
  { s with client := some { closed := false } }

/-- Model of `FileSystem.__aexit__` for an HTTP handle: the exit stack closes
the registered client. -/
def HttpFileSystem.aexit (s : HttpFSState) : HttpFSState :=
  { s with client := s.client.map (fun _ => { closed := true }) }

/-! ## The exit stack shared by every handle

`FileSystem` gives each instance a fresh `contextlib.AsyncExitStack` in
`ctx`, and `__aexit__` is exactly `await self.ctx.aclose()`.  The stack is
modelled by the list of resources registered on it, most recent first;
`aclose` unwinds every registered callback in LIFO order and leaves the stack
empty, so a second `aclose` releases nothing. -/

/-- Model of `contextlib.AsyncExitStack`: the resources registered on it,
most recently entered first. -/
structure AsyncExitStack (ρ : Type) where
  callbacks : List ρ
deriving DecidableEq, Repr

/-- Model of `AsyncExitStack.enter_async_context`: register one resource. -/
def AsyncExitStack.enter_async_context {ρ : Type} (s : AsyncExitStack ρ)
    (r : ρ) : AsyncExitStack ρ :=
  { callbacks := r :: s.callbacks }

/-- Model of `AsyncExitStack.aclose`: release every registered resource in
LIFO order and leave the stack empty. -/
def AsyncExitStack.aclose {ρ : Type} (s : AsyncExitStack ρ) :
    List ρ × AsyncExitStack ρ :=
  (s.callbacks, { callbacks := [] })

/-- Model of `FileSystem.__aexit__`: `await self.ctx.aclose()`.  Returns the
resources released and the stack afterwards. -/
def FileSystem.aexit {ρ : Type} (s : AsyncExitStack ρ) :
    List ρ × AsyncExitStack ρ :=
  s.aclose

/-- An open that registers the given resources in order on a fresh stack. -/
def openRegister {ρ : Type} (rs : List ρ) : AsyncExitStack ρ :=
  rs.foldl AsyncExitStack.enter_async_context { callbacks := [] }

/-! ## Object-store backends: bucket and key resolution

`S3FileSystem.__aenter__` resolves `(parsed.netloc, parsed.path.strip("/"))`
and `GcsFileSystem.__aenter__` resolves the same pair;
`AtlasS3FileSystem.__aenter__` instead pairs the fixed configured bucket with
the raw `parsed.path`. -/

/-- The bucket and object key resolved by `S3FileSystem.__aenter__`:
`(parsed.netloc, parsed.path.strip("/"))`. -/
def S3FileSystem.resolveObject (filepath : String) : String × String :=
  ((urlparse filepath).netloc, pyStrip '/' (urlparse filepath).path)

/-- The bucket and object key resolved by `GcsFileSystem.__aenter__`:
`(parsed.netloc, parsed.path.strip("/"))`. -/
def GcsFileSystem.resolveObject (filepath : String) : String × String :=
  ((urlparse filepath).netloc, pyStrip '/' (urlparse filepath).path)

/-- Modelled from the spec: the process-wide configuration module
`src.utilities.settings` (not in src/), which supplies the fixed bucket name
and the shared session consumed by `AtlasS3FileSystem`. -/
structure Settings where
  IMAGE_BUCKET_NAME : String
deriving DecidableEq, Repr

/-- The bucket and object key resolved by `AtlasS3FileSystem.__aenter__`:
`(settings.IMAGE_BUCKET_NAME, parsed.path)` with the path unmodified. -/
def AtlasS3FileSystem.resolveObject (st : Settings) (filepath : String) :
    String × String :=
  (st.IMAGE_BUCKET_NAME, (urlparse filepath).path)

/-- Modelled from the claim: the object key said to be resolved by the
generic object-store and cloud-bucket backends, namely the path with its
leading separator stripped and otherwise unchanged. -/
def claimObjectKey (path : String) : String :=
  String.mk (path.toList.dropWhile (fun x => x == '/'))

/-! ## Atlas lifecycle and the borrowed shared session

`AtlasS3FileSystem.__aenter__` takes `settings.AWS_S3_ASYNC_CLIENT` as its
session without registering it anywhere, and enters only
`session.resource("s3")` on the exit stack; `get` touches neither; `__aexit__`
releases exactly what the stack holds. -/

/-- Resources distinguishable in the atlas handle's lifecycle: the
`resource("s3")` context it enters on its own stack, and the process-wide
shared session it merely borrows. -/
inductive AtlasRes where
  | s3ResourceCtx
  | sharedSession
deriving DecidableEq, Repr

/-- Observable state for the atlas lifecycle: the handle's exit stack, the
log of resources this layer has released, and whether the shared session has
been closed. -/
structure AtlasWorld where
  ctx : List AtlasRes
  released : List AtlasRes
  sessionClosed : Bool
deriving DecidableEq, Repr

/-- The handle operations of the atlas backend's lifecycle. -/
inductive AtlasOp where
  | openH
  | getH
  | closeH
deriving DecidableEq, Repr

/-- One step of the atlas handle's lifecycle: `__aenter__` enters only the
`resource("s3")` context on the stack (the borrowed session is not
registered), `get` touches no resource, and `__aexit__` releases exactly the
stack's contents. -/
def AtlasS3FileSystem.step (w : AtlasWorld) : AtlasOp → AtlasWorld
  | .openH => { w with ctx := AtlasRes.s3ResourceCtx :: w.ctx }
  | .getH => w
  | .closeH => { w with ctx := [], released := w.released ++ w.ctx }

/-- Run a sequence of atlas handle operations. -/
def AtlasS3FileSystem.run (w : AtlasWorld) (ops : List AtlasOp) : AtlasWorld :=
  ops.foldl AtlasS3FileSystem.step w

/-- The initial atlas world: fresh empty stack, nothing released, the shared
session open. -/
def AtlasS3FileSystem.initWorld : AtlasWorld :=
  { ctx := [], released := [], sessionClosed := false }

/-! ## Helper lemmas -/

/-- Registering a list of resources on a stack prepends them in reverse. -/
theorem openRegister_callbacks {ρ : Type} (rs : List ρ) (s : AsyncExitStack ρ) :
    (rs.foldl AsyncExitStack.enter_async_context s).callbacks =
      rs.reverse ++ s.callbacks := by
  induction rs generalizing s with
  | nil => simp
  | cons r t ih =>
    simp [List.foldl, ih, AsyncExitStack.enter_async_context]

/-- A run of characters equal to `c` taken by `takeWhile` is a replicate. -/
theorem takeWhile_beq_eq_replicate (c : Char) (l : List Char) :
    l.takeWhile (fun x => x == c) =
      List.replicate (l.takeWhile (fun x => x == c)).length c := by
  apply List.eq_replicate_of_mem
  intro b hb
  have hbc := List.mem_takeWhile_imp hb
  simpa using hbc

/-- The first element surviving `dropWhile (· == c)` is not `c`. -/
theorem dropWhile_head_beq_ne (c : Char) (l : List Char) :
    (l.dropWhile (fun x => x == c)).head? ≠ some c := by
  have h := List.head?_dropWhile_not (fun x => x == c) l
  intro hc
  rw [hc] at h
  simp at h

/-- Dropping a leading run does not change the last element when something
survives. -/
theorem getLast?_dropWhile {α : Type} (p : α → Bool) :
    ∀ l : List α, l.dropWhile p ≠ [] → (l.dropWhile p).getLast? = l.getLast?
  | [], h => absurd rfl h
  | a :: t, h => by
    rw [List.dropWhile_cons] at h ⊢
    by_cases hpa : p a
    · rw [if_pos hpa] at h ⊢
      cases t with
      | nil => exact absurd rfl h
      | cons b t2 =>
        rw [List.getLast?_cons_cons]
        exact getLast?_dropWhile p (b :: t2) h
    · rw [if_neg hpa]

/-- Python `str.strip(c)` removes exactly a run of `c` from each end: the
original splits as a left run, the stripped core, and a right run, and the
core neither starts nor ends with `c`. -/
theorem pyStrip_decomposition (c : Char) (s : String) :
    (∃ m n, s.toList =
      List.replicate m c ++ (pyStrip c s).toList ++ List.replicate n c) ∧
    (pyStrip c s).toList.head? ≠ some c ∧
    (pyStrip c s).toList.getLast? ≠ some c := by
  rw [show (pyStrip c s).toList =
    ((s.toList.dropWhile (fun x => x == c)).reverse.dropWhile
      (fun x => x == c)).reverse from rfl]
  generalize s.toList = l
  generalize hl1 : l.dropWhile (fun x => x == c) = l1
  generalize hr : l1.reverse.dropWhile (fun x => x == c) = r
  have e1 : l.takeWhile (fun x => x == c) ++ l1 = l := by
    rw [← hl1]
    exact List.takeWhile_append_dropWhile _ _
  have e2 : l1.reverse.takeWhile (fun x => x == c) ++ r = l1.reverse := by
    rw [← hr]
    exact List.takeWhile_append_dropWhile _ _
  obtain ⟨n, hn⟩ : ∃ n, l1.reverse.takeWhile (fun x => x == c) =
      List.replicate n c :=
    ⟨_, takeWhile_beq_eq_replicate c l1.reverse⟩
  obtain ⟨m, hm⟩ : ∃ m, l.takeWhile (fun x => x == c) = List.replicate m c :=
    ⟨_, takeWhile_beq_eq_replicate c l⟩
  have e3 : l1 = r.reverse ++ List.replicate n c := by
    conv_lhs => rw [← List.reverse_reverse l1, ← e2]
    rw [List.reverse_append, hn, List.reverse_replicate]
  refine ⟨⟨m, n, ?_⟩, ?_, ?_⟩
  · calc l = l.takeWhile (fun x => x == c) ++ l1 := e1.symm
      _ = List.replicate m c ++ (r.reverse ++ List.replicate n c) := by
          rw [hm, ← e3]
      _ = List.replicate m c ++ r.reverse ++ List.replicate n c := by
          rw [List.append_assoc]
  · rw [List.head?_reverse]
    intro hcon
    have hrnil : r ≠ [] := by
      intro he
      rw [he] at hcon
      simp at hcon
    rw [← hr] at hrnil hcon
    rw [getLast?_dropWhile _ _ hrnil, List.getLast?_reverse, ← hl1] at hcon
    exact dropWhile_head_beq_ne c l hcon
  · rw [List.getLast?_reverse, ← hr]
    exact dropWhile_head_beq_ne c l1.reverse

/-- Every atlas lifecycle step preserves the invariant that the shared
session is untouched: it is never on the stack, never in the release log, and
its closed flag never changes. -/
theorem atlas_run_invariant (ops : List AtlasOp) :
    ∀ w : AtlasWorld,
      w.ctx.all (fun r => r == AtlasRes.s3ResourceCtx) = true →
      w.released.all (fun r => r == AtlasRes.s3ResourceCtx) = true →
      (AtlasS3FileSystem.run w ops).sessionClosed = w.sessionClosed ∧
      (AtlasS3FileSystem.run w ops).ctx.all
        (fun r => r == AtlasRes.s3ResourceCtx) = true ∧
      (AtlasS3FileSystem.run w ops).released.all
        (fun r => r == AtlasRes.s3ResourceCtx) = true := by
  induction ops with
  | nil => exact fun w h1 h2 => ⟨rfl, h1, h2⟩
  | cons op t ih =>
    intro w h1 h2
    have hstep :
        (AtlasS3FileSystem.step w op).sessionClosed = w.sessionClosed ∧
        (AtlasS3FileSystem.step w op).ctx.all
          (fun r => r == AtlasRes.s3ResourceCtx) = true ∧
        (AtlasS3FileSystem.step w op).released.all
          (fun r => r == AtlasRes.s3ResourceCtx) = true := by
      cases op with
      | openH =>
        refine ⟨rfl, ?_, h2⟩
        simp only [AtlasS3FileSystem.step, List.all_cons]
        rw [h1]
        rfl
      | getH => exact ⟨rfl, h1, h2⟩
      | closeH =>
        refine ⟨rfl, rfl, ?_⟩
        simp only [AtlasS3FileSystem.step, List.all_append]
        rw [h1, h2]
        rfl
    have := ih (AtlasS3FileSystem.step w op) hstep.2.1 hstep.2.2
    exact ⟨this.1.trans hstep.1, this.2.1, this.2.2⟩

/-! ## Claim theorems -/

/-- C1: for every location string, `create_from_filepath` (with both optional
client libraries available) returns a handle of the backend matching the URI
scheme — `http`/`https` give `HttpFileSystem`, `s3` gives `S3FileSystem`,
`atlas` gives `AtlasS3FileSystem`, `gs` gives `GcsFileSystem`, `file` or an
empty scheme gives `LocalFileSystem` — and for any other non-empty scheme it
raises a `ValueError` naming that scheme. -/
theorem create_from_filepath_dispatch (fp : String) :
    ((urlparse fp).scheme = "http" ∨ (urlparse fp).scheme = "https" →
      FileSystem.create_from_filepath ⟨true, true⟩ fp =
        .ok { kind := .http, filepath := fp }) ∧
    ((urlparse fp).scheme = "s3" →
      FileSystem.create_from_filepath ⟨true, true⟩ fp =
        .ok { kind := .s3FS, filepath := fp }) ∧
    ((urlparse fp).scheme = "atlas" →
      FileSystem.create_from_filepath ⟨true, true⟩ fp =
        .ok { kind := .atlasS3, filepath := fp }) ∧
    ((urlparse fp).scheme = "gs" →
      FileSystem.create_from_filepath ⟨true, true⟩ fp =
        .ok { kind := .gcs, filepath := fp }) ∧
    ((urlparse fp).scheme = "file" ∨ (urlparse fp).scheme = "" →
      FileSystem.create_from_filepath ⟨true, true⟩ fp =
        .ok { kind := .localFS, filepath := fp }) ∧
    ((urlparse fp).scheme ≠ "http" ∧ (urlparse fp).scheme ≠ "https" ∧
      (urlparse fp).scheme ≠ "s3" ∧ (urlparse fp).scheme ≠ "atlas" ∧
      (urlparse fp).scheme ≠ "gs" ∧ (urlparse fp).scheme ≠ "file" ∧
      (urlparse fp).scheme ≠ "" →
      FileSystem.create_from_filepath ⟨true, true⟩ fp =
        .error (.valueError
          ("\x27" ++ (urlparse fp).scheme ++ "\x27 is not supported"))) := by
  generalize hu : urlparse fp = u
  refine ⟨?_, ?_, ?_, ?_, ?_, ?_⟩
  · rintro (h | h) <;>
      simp [FileSystem.create_from_filepath, hu, h, HttpFileSystem.init]
  · intro h
    simp [FileSystem.create_from_filepath, hu, h, S3FileSystem.init]
  · intro h
    simp [FileSystem.create_from_filepath, hu, h, AtlasS3FileSystem.init]
  · intro h
    simp [FileSystem.create_from_filepath, hu, h, GcsFileSystem.init]
  · rintro (h | h) <;>
      simp [FileSystem.create_from_filepath, hu, h, LocalFileSystem.init]
  · rintro ⟨h1, h2, h3, h4, h5, h6, h7⟩
    simp [FileSystem.create_from_filepath, hu, h1, h2, h3, h4, h5, h6, h7]

/-- Witness for C1: the dispatch theorem applied to one concrete location per
scheme, including the unsupported scheme `ftp`. -/
theorem create_from_filepath_dispatch_witness :
    FileSystem.create_from_filepath ⟨true, true⟩ "https://example.com/a.pmtiles" =
      .ok { kind := .http, filepath := "https://example.com/a.pmtiles" } ∧
    FileSystem.create_from_filepath ⟨true, true⟩ "s3://bucket/key.ext" =
      .ok { kind := .s3FS, filepath := "s3://bucket/key.ext" } ∧
    FileSystem.create_from_filepath ⟨true, true⟩ "atlas://host/key.ext" =
      .ok { kind := .atlasS3, filepath := "atlas://host/key.ext" } ∧
    FileSystem.create_from_filepath ⟨true, true⟩ "gs://bucket/key.ext" =
      .ok { kind := .gcs, filepath := "gs://bucket/key.ext" } ∧
    FileSystem.create_from_filepath ⟨true, true⟩ "archive.pmtiles" =
      .ok { kind := .localFS, filepath := "archive.pmtiles" } ∧
    FileSystem.create_from_filepath ⟨true, true⟩ "ftp://host/path" =
      .error (.valueError "\x27ftp\x27 is not supported") :=
  ⟨(create_from_filepath_dispatch _).1 (Or.inr (by decide)),
   (create_from_filepath_dispatch _).2.1 (by decide),
   (create_from_filepath_dispatch _).2.2.1 (by decide),
   (create_from_filepath_dispatch _).2.2.2.1 (by decide),
   (create_from_filepath_dispatch _).2.2.2.2.1 (Or.inr (by decide)),
   by
     have h := (create_from_filepath_dispatch "ftp://host/path").2.2.2.2.2
       (by refine ⟨?_, ?_, ?_, ?_, ?_, ?_, ?_⟩ <;> decide)
     rw [show "\x27" ++ (urlparse "ftp://host/path").scheme ++
       "\x27 is not supported" = "\x27ftp\x27 is not supported" from by decide] at h
     exact h⟩

/-- C2: the range string sent by the HTTP, generic object-store and
cloud-bucket backends is exactly `bytes=<offset>-<offset+length>`, an
inclusive upper bound. -/
theorem range_string_matches_spec_convention (offset length : Nat) :
    HttpFileSystem.rangeHeader offset length =
      specRangeConvention offset length ∧
    S3FileSystem.rangeArg offset length = specRangeConvention offset length ∧
    GcsFileSystem.rangeHeader offset length =
      specRangeConvention offset length ∧
    specRangeConvention offset length =
      "bytes=" ++ toString offset ++ "-" ++ toString (offset + length) :=
  ⟨rfl, rfl, rfl, rfl⟩

/-- C3: on an open local handle, `get(offset, length)` seeks to `offset` and
reads `length + 1` bytes: it returns the bytes at positions `offset` through
`offset + length` inclusive, `min (length + 1) (n - offset)` bytes in total,
and a shorter read at end of file is an ordinary result, not an error; over a
100-byte file, `get 10 4` returns the 5 bytes at positions 10 through 14. -/
theorem localFileSystem_get_range (fp : String) (contents : List Nat)
    (offset length : Nat) :
    (∃ s1, LocalFileSystem.get
        { filepath := fp,
          file := some { contents := contents, pos := 0, closed := false } }
        offset length =
      .ok ((contents.drop offset).take (length + 1), s1)) ∧
    ((contents.drop offset).take (length + 1)).length =
      min (length + 1) (contents.length - offset) ∧
    (∀ i : Nat, ((contents.drop offset).take (length + 1))[i]? =
      if i ≤ length then contents[offset + i]? else none) ∧
    LocalFileSystem.get
        { filepath := fp,
          file := some { contents := List.range 100, pos := 0, closed := false } }
        10 4 =
      .ok ([10, 11, 12, 13, 14],
        { filepath := fp,
          file := some { contents := List.range 100, pos := 15, closed := false } }) := by
  refine ⟨⟨_, rfl⟩, ?_, ?_, by rfl⟩
  · simp [List.length_take, List.length_drop]
  · intro i
    by_cases h : i ≤ length
    · rw [if_pos h, List.getElem?_take_of_lt (by omega), List.getElem?_drop]
    · rw [if_neg h]
      apply List.getElem?_eq_none
      rw [List.length_take]
      omega

/-- C4: on an open HTTP handle, a response with a non-success status makes
`get` raise `HTTPStatusError` (so no partial or empty bytes are returned),
and a success response makes `get` return the response body. -/
theorem httpFileSystem_get_status (fp : String)
    (server : String → HttpResponse) (offset length : Nat) :
    ((server (HttpFileSystem.rangeHeader offset length)).is_success = false →
      HttpFileSystem.get { filepath := fp, client := some { closed := false } }
          server offset length =
        .error (.httpStatusError
          (server (HttpFileSystem.rangeHeader offset length)).status)) ∧
    ((server (HttpFileSystem.rangeHeader offset length)).is_success = true →
      HttpFileSystem.get { filepath := fp, client := some { closed := false } }
          server offset length =
        .ok (server (HttpFileSystem.rangeHeader offset length)).content) := by
  constructor <;> intro h <;>
    simp [HttpFileSystem.get, HttpResponse.raise_for_status, h]

/-- Witness for C4: a 404 response to `get 0 9` surfaces as an
`HTTPStatusError`, and a 200 response returns the body bytes. -/
theorem httpFileSystem_get_status_witness :
    HttpFileSystem.get
        { filepath := "http://example.com/t", client := some { closed := false } }
        (fun _ => { status := 404, content := [] }) 0 9 =
      .error (.httpStatusError 404) ∧
    HttpFileSystem.get
        { filepath := "http://example.com/t", client := some { closed := false } }
        (fun _ => { status := 200, content := [1, 2] }) 0 9 =
      .ok [1, 2] :=
  ⟨(httpFileSystem_get_status "http://example.com/t" _ 0 9).1 (by decide),
   (httpFileSystem_get_status "http://example.com/t" _ 0 9).2 (by decide)⟩

/-- C5: when the optional client library is unavailable, constructing the
generic object-store, specialized object-store, or cloud-bucket backend fails
immediately in `__post_init__` with an assertion naming the missing
dependency, instead of failing later inside `get`. -/
theorem object_store_init_requires_dependency (fp : String) (d : Deps) :
    (d.aioboto3 = false →
      S3FileSystem.init d fp = .error (.assertionError
        "\x27aioboto3\x27 must be installed to use S3 FileSystem") ∧
      AtlasS3FileSystem.init d fp = .error (.assertionError
        "\x27aioboto3\x27 must be installed to use S3 FileSystem")) ∧
    (d.gcpStorage = false →
      GcsFileSystem.init d fp = .error (.assertionError
        "\x27gcloud-aio-storage\x27 must be installed to use GCS FileSystem")) := by
  constructor <;> intro h <;>
    simp [S3FileSystem.init, AtlasS3FileSystem.init, GcsFileSystem.init, h]

/-- Witness for C5: with neither library importable, each backend's
construction fails with the assertion naming its dependency. -/
theorem object_store_init_requires_dependency_witness :
    S3FileSystem.init { aioboto3 := false, gcpStorage := false }
        "s3://bucket/key.ext" =
      .error (.assertionError
        "\x27aioboto3\x27 must be installed to use S3 FileSystem") ∧
    AtlasS3FileSystem.init { aioboto3 := false, gcpStorage := false }
        "atlas://host/key.ext" =
      .error (.assertionError
        "\x27aioboto3\x27 must be installed to use S3 FileSystem") ∧
    GcsFileSystem.init { aioboto3 := false, gcpStorage := false }
        "gs://bucket/key.ext" =
      .error (.assertionError
        "\x27gcloud-aio-storage\x27 must be installed to use GCS FileSystem") :=
  ⟨((object_store_init_requires_dependency "s3://bucket/key.ext" _).1 rfl).1,
   ((object_store_init_requires_dependency "atlas://host/key.ext" _).1 rfl).2,
   (object_store_init_requires_dependency "gs://bucket/key.ext" _).2 rfl⟩

/-- C6: `__aexit__` (`ctx.aclose()`) releases every resource registered on
the handle's exit stack — whatever subset of an open actually got registered,
including everything registered by a complete open — in LIFO order, leaves
the stack empty, and a second close is safe and releases nothing. -/
theorem fileSystem_aexit_releases_all_idempotent {ρ : Type}
    (s : AsyncExitStack ρ) (rs : List ρ) :
    (FileSystem.aexit s).1 = s.callbacks ∧
    (FileSystem.aexit (openRegister rs)).1 = rs.reverse ∧
    (FileSystem.aexit (FileSystem.aexit s).2).1 = [] ∧
    FileSystem.aexit (FileSystem.aexit s).2 = ([], { callbacks := [] }) := by
  refine ⟨rfl, ?_, rfl, rfl⟩
  simp [FileSystem.aexit, AsyncExitStack.aclose, openRegister,
    openRegister_callbacks]

/-- C7: calling `get` before `open` fails with `AttributeError` (the
`field(init=False)` attribute was never assigned) and calling it after
`close` fails because the underlying file or client has been closed — it
never silently returns data. -/
theorem get_outside_open_lifecycle_errors (fp : String) (offset length : Nat)
    (server : String → HttpResponse) (f : AioFile) (c : HttpxClient) :
    LocalFileSystem.get { filepath := fp, file := none } offset length =
      .error (.attributeError
        "\x27LocalFileSystem\x27 object has no attribute \x27file\x27") ∧
    HttpFileSystem.get { filepath := fp, client := none } server offset length =
      .error (.attributeError
        "\x27HttpFileSystem\x27 object has no attribute \x27client\x27") ∧
    LocalFileSystem.get (LocalFileSystem.aexit { filepath := fp, file := some f })
        offset length =
      .error (.valueError "I/O operation on closed file") ∧
    HttpFileSystem.get (HttpFileSystem.aexit { filepath := fp, client := some c })
        server offset length =
      .error (.runtimeError
        "Cannot send a request, as the client has been closed.") := by
  refine ⟨rfl, rfl, ?_, ?_⟩
  · simp [LocalFileSystem.aexit, LocalFileSystem.get, AioFile.seek]
  · simp [HttpFileSystem.aexit, HttpFileSystem.get]

/-- C8 counterexample: `str.strip("/")` removes separators from both ends,
so over `s3://bucket/key.ext/` the resolved key is `key.ext`, not the
claimed `key.ext/` (the path with only its leading separator stripped). -/
theorem s3_resolve_key_strips_trailing_separator :
    claimObjectKey (urlparse "s3://bucket/key.ext/").path = "key.ext/" ∧
    (S3FileSystem.resolveObject "s3://bucket/key.ext/").2 = "key.ext" ∧
    (GcsFileSystem.resolveObject "gs://bucket/key.ext/").2 = "key.ext" ∧
    (S3FileSystem.resolveObject "s3://bucket/key.ext/").2 ≠
      claimObjectKey (urlparse "s3://bucket/key.ext/").path :=
  ⟨by decide, by decide, by decide, by decide⟩

/-- C8 (amended): the generic object-store and cloud-bucket backends resolve
the bucket as the URI's host and the object key as the URI's path with every
leading and trailing `/` stripped: the path decomposes as a run of slashes,
the key, and a run of slashes, and the key neither starts nor ends with a
slash; `s3://bucket/key.ext` resolves to bucket `bucket` and key `key.ext`. -/
theorem s3_gcs_resolve_bucket_and_stripped_key (fp : String) :
    S3FileSystem.resolveObject fp =
      ((urlparse fp).netloc, pyStrip '/' (urlparse fp).path) ∧
    GcsFileSystem.resolveObject fp = S3FileSystem.resolveObject fp ∧
    (∃ m n, ((urlparse fp).path).toList =
      List.replicate m '/' ++ (pyStrip '/' (urlparse fp).path).toList ++
        List.replicate n '/') ∧
    (pyStrip '/' (urlparse fp).path).toList.head? ≠ some '/' ∧
    (pyStrip '/' (urlparse fp).path).toList.getLast? ≠ some '/' ∧
    S3FileSystem.resolveObject "s3://bucket/key.ext" = ("bucket", "key.ext") := by
  obtain ⟨h1, h2, h3⟩ := pyStrip_decomposition '/' (urlparse fp).path
  exact ⟨rfl, rfl, h1, h2, h3, by decide⟩

/-- C9: across every sequence of atlas handle operations, close releases only
what the handle itself registered during open (the `resource("s3")` context);
the borrowed process-wide shared session is never registered, never released,
and its closed flag never changes. -/
theorem atlas_close_spares_shared_session (ops : List AtlasOp) :
    (AtlasS3FileSystem.run AtlasS3FileSystem.initWorld ops).sessionClosed =
      false ∧
    (AtlasS3FileSystem.run AtlasS3FileSystem.initWorld ops).released.all
      (fun r => r == AtlasRes.s3ResourceCtx) = true ∧
    AtlasS3FileSystem.run AtlasS3FileSystem.initWorld
        [AtlasOp.openH, AtlasOp.closeH] =
      { ctx := [], released := [AtlasRes.s3ResourceCtx],
        sessionClosed := false } := by
  have h := atlas_run_invariant ops AtlasS3FileSystem.initWorld rfl rfl
  exact ⟨h.1, h.2.2, rfl⟩

/-- C10 (implicit): the atlas backend pairs the fixed configured bucket with
the raw URI path, leading slash retained, while the generic backend strips
slashes from both ends; for `atlas://host/key.ext` the key is `/key.ext`,
not the `key.ext` the generic backend would produce. -/
theorem atlas_resolve_keeps_raw_path (st : Settings) (fp : String) :
    AtlasS3FileSystem.resolveObject st fp =
      (st.IMAGE_BUCKET_NAME, (urlparse fp).path) ∧
    (AtlasS3FileSystem.resolveObject st "atlas://host/key.ext").2 =
      "/key.ext" ∧
    pyStrip '/' (urlparse "atlas://host/key.ext").path = "key.ext" ∧
    (S3FileSystem.resolveObject "s3://host/key.ext").2 = "key.ext" ∧
    (AtlasS3FileSystem.resolveObject st "atlas://host/key.ext").2 ≠
      (S3FileSystem.resolveObject "s3://host/key.ext").2 :=
  ⟨rfl,
   (by decide : (urlparse "atlas://host/key.ext").path = "/key.ext"),
   by decide, by decide,
   (by decide : (urlparse "atlas://host/key.ext").path ≠
     (S3FileSystem.resolveObject "s3://host/key.ext").2)⟩
